import Mathlib

/-!
Verification of the dynamic-sampling adjustment primitives and of the
source-map debug endpoint helpers of this repository.

The repository ships the unit tests of `apply_dynamic_factor` and
`adjusted_factor` (`tests/sentry/dynamic_sampling/test_utils.py`) but not the
module `sentry.dynamic_sampling.rules.utils` that defines them, so those two
functions are modelled from the specification, whose §8 literal test vectors
(the ones appearing verbatim in the shipped test file) are declared by the
specification itself to be the authoritative description of the formulas.
The source-map debug endpoint (`source_map_debug_blue_thunder_edition.py`)
is shipped in full and is embedded directly from the source.

Real-valued models use `ℝ`; the exact `==` comparisons of the shipped
`test_adjusted_factor` are facts about IEEE-754 binary64 arithmetic, so a
bit-exact integer model of binary64 rounding (round to nearest, ties to even)
is provided as well and evaluated by `decide`.
-/

namespace Binary64

/-- Floor of the base-2 logarithm of `n`, computed with explicit fuel so that
the kernel can evaluate it. `log2f fuel n` is `⌊log₂ n⌋` for `1 ≤ n < 2 ^ fuel`
and `0` for `n = 0`. -/
def log2f : Nat → Nat → Nat
  | 0, _ => 0
  | fuel + 1, n => if n ≤ 1 then 0 else log2f fuel (n / 2) + 1

/-- A positive binary64 (double-precision) value `mantissa · 2 ^ exponent`,
with `mantissa ∈ [2^52, 2^53)` for normalized values. Only positive values in
the normal range occur in the shipped tests, so sign, zero, subnormals,
infinities and NaN are not represented. -/
structure Fp where
  mantissa : Nat
  exponent : Int
  deriving DecidableEq

/-- Round the positive rational `p / q` (`p, q ≥ 1`) to 53 significant bits,
round-to-nearest with ties to even — the IEEE-754 binary64 rounding performed
by every Python float literal and arithmetic operation. The binade exponent
`e` (with `2 ^ e ≤ p / q < 2 ^ (e+1)`) is located from the bit lengths of `p`
and `q`; the significand is the correctly rounded value of `(p / q) · 2 ^ (52 - e)`. -/
def divRound (p q : Nat) : Fp :=
  let a := log2f 200 p
  let b := log2f 200 q
  let e : Int := if q * 2 ^ a ≤ p * 2 ^ b then (a : Int) - b else (a : Int) - b - 1
  let shift : Int := 52 - e
  let P := if 0 ≤ shift then p * 2 ^ shift.toNat else p
  let Q := if 0 ≤ shift then q else q * 2 ^ (-shift).toNat
  let n := P / Q
  let r := P % Q
  let n2 :=
    if 2 * r < Q then n
    else if Q < 2 * r then n + 1
    else if n % 2 = 0 then n else n + 1
  if n2 = 2 ^ 53 then ⟨2 ^ 52, e - 51⟩ else ⟨n2, e - 52⟩

/-- The binary64 value of the decimal literal `u · 10 ^ (-k)`, i.e. the double
that Python parses from that literal. -/
def ofDec (u k : Nat) : Fp := divRound u (10 ^ k)

/-- Binary64 division of positive doubles: the exact quotient, correctly
rounded. -/
def fdiv (x y : Fp) : Fp :=
  let z := divRound x.mantissa y.mantissa
  ⟨z.mantissa, z.exponent + x.exponent - y.exponent⟩

/-- Binary64 multiplication of positive doubles: the exact product, correctly
rounded. -/
def fmul (x y : Fp) : Fp :=
  let z := divRound (x.mantissa * y.mantissa) 1
  ⟨z.mantissa, z.exponent + x.exponent + y.exponent⟩

/-- Modelled from the spec: the binary64 evaluation of `adjusted_factor` from
`sentry.dynamic_sampling.rules.utils` (absent from the shipped sources; its
formula `prev_factor * (desired_sample_rate / actual_rate)` is pinned by the
§8 vectors, which the spec declares authoritative — the spec itself notes that
`sqrt(desired/actual)` fails the vector `(1.0, 0.25, 0.5) ↦ 2.0` while the
plain ratio matches). Python evaluates the expression as one division followed
by one multiplication, each rounded to binary64. Domain checks are omitted
here: this model is only applied to the four valid test vectors. -/
def adjusted_factor_fp (prev_factor actual_rate desired_sample_rate : Fp) : Fp :=
  fmul prev_factor (fdiv desired_sample_rate actual_rate)

end Binary64

namespace DynamicSampling

open Real

/-- Modelled from the spec: `apply_dynamic_factor(base_sample_rate, x)` of
`sentry.dynamic_sampling.rules.utils` (imported by the shipped test file but
itself absent from the sources). Per §4.1 it fails with an InvalidArgument
style error when `base_sample_rate` is outside `[0, 1]` or `x ≤ 0`. For the
result the spec instructs: "Use the literal scenarios in §8 as the
authoritative specification of the formula's exact shape, not the prose
description"; the closed form matching all four §8 vectors is
`x ^ (1 - base_sample_rate)` (real-power interpolation between `x` and `1`):
`2 ^ 0.9 = 1.86606598…` matches vector 2 where the prose sqrt blend gives
`1.9`. -/
noncomputable def apply_dynamic_factor (base_sample_rate x : ℝ) : Except String ℝ :=
  if base_sample_rate < 0 ∨ 1 < base_sample_rate ∨ x ≤ 0 then
    Except.error "Invalid base_sample_rate or x"
  else
    Except.ok (x ^ (1 - base_sample_rate))

/-- Modelled from the spec: `adjusted_factor(prev_factor, actual_rate,
desired_sample_rate)` of `sentry.dynamic_sampling.rules.utils` (absent from
the shipped sources). Per §4.2 it fails when `actual_rate ≤ 0` or
`desired_sample_rate ≤ 0`; the result formula is pinned by the §8 vectors
(declared authoritative by the spec) to the plain proportional correction
`prev_factor * (desired_sample_rate / actual_rate)`: the vector
`(1.0, 0.25, 0.5) ↦ 2.0` matches `0.5 / 0.25 = 2` and rules out
`sqrt(desired/actual) = √2`. -/
noncomputable def adjusted_factor (prev_factor actual_rate desired_sample_rate : ℝ) :
    Except String ℝ :=
  if actual_rate ≤ 0 ∨ desired_sample_rate ≤ 0 then
    Except.error "Invalid actual_rate or desired_sample_rate"
  else
    Except.ok (prev_factor * (desired_sample_rate / actual_rate))

end DynamicSampling

namespace SourceMapDebug

/-- A debug image from `event.data.debug_meta.images`
(`source_map_debug_blue_thunder_edition.py`): only the `type` and `debug_id`
keys are read by the debug-id extraction at lines 157-161. -/
structure DebugImage where
  type : String
  debug_id : String
  deriving DecidableEq

/-- `SourceFileType` of `sentry.models.artifactbundle`, as matched by the GET
handler at lines 168-179 (`SOURCE`, `MINIFIED_SOURCE`, `SOURCE_MAP`, plus the
remaining variant `INDEXED_RAM_BUNDLE`). -/
inductive SourceFileType where
  | source_map
  | source
  | minified_source
  | indexed_ram_bundle
  deriving DecidableEq

/-- A row of the `DebugIdArtifactBundle` query result: the fields read by the
loop at lines 168-179 (`debug_id`, already stringified, and
`source_file_type`). -/
structure DebugIdArtifactBundleRow where
  debug_id : String
  source_file_type : SourceFileType
  deriving DecidableEq

/-- Lines 157-161 of `source_map_debug_blue_thunder_edition.py`:
`[debug_image["debug_id"] for debug_image in debug_images if
debug_image["type"] == "sourcemap"][0:100]`. -/
def extracted_debug_ids (debug_images : List DebugImage) : List String :=
  ((debug_images.filter (fun i => i.type = "sourcemap")).map
    (fun i => i.debug_id)).take 100

/-- Lines 162-179 of `source_map_debug_blue_thunder_edition.py`: the
`DebugIdArtifactBundle` query is filtered by `debug_id__in=debug_ids`
(modelled as a membership filter over the table rows), and the loop sorts each
matching row into `debug_ids_with_uploaded_source_file` (on `SOURCE` or
`MINIFIED_SOURCE`) or `debug_ids_with_uploaded_source_map` (on `SOURCE_MAP`).
The two Python sets are modelled as lists of the added ids. -/
def debug_id_sets (debug_images : List DebugImage)
    (rows : List DebugIdArtifactBundleRow) : List String × List String :=
  let debug_ids := extracted_debug_ids debug_images
  let matching := rows.filter (fun r => r.debug_id ∈ debug_ids)
  ((matching.filter (fun r =>
      r.source_file_type = SourceFileType.source ∨
      r.source_file_type = SourceFileType.minified_source)).map (fun r => r.debug_id),
   (matching.filter (fun r =>
      r.source_file_type = SourceFileType.source_map)).map (fun r => r.debug_id))

/-- `MIN_JS_SDK_VERSION_FOR_DEBUG_IDS` (line 35). -/
def MIN_JS_SDK_VERSION_FOR_DEBUG_IDS : String := "7.56.0"

/-- `NO_DEBUG_ID_SDKS` (lines 37-44). -/
def NO_DEBUG_ID_SDKS : List String :=
  ["sentry.javascript.capacitor",
   "sentry.javascript.react-native",
   "sentry.javascript.wasm",
   "sentry.javascript.cordova",
   "sentry.javascript.nextjs",
   "sentry.javascript.sveltekit"]

/-- The fallback `official_sdks` list of `get_sdk_debug_id_support`
(lines 444-462), used when the release registry is unavailable or yields no
`sentry.javascript.` entries. -/
def FALLBACK_OFFICIAL_SDKS : List String :=
  ["sentry.javascript.angular",
   "sentry.javascript.angular-ivy",
   "sentry.javascript.browser",
   "sentry.javascript.capacitor",
   "sentry.javascript.cordova",
   "sentry.javascript.electron",
   "sentry.javascript.gatsby",
   "sentry.javascript.nextjs",
   "sentry.javascript.node",
   "sentry.javascript.opentelemetry-node",
   "sentry.javascript.react",
   "sentry.javascript.react-native",
   "sentry.javascript.remix",
   "sentry.javascript.svelte",
   "sentry.javascript.sveltekit",
   "sentry.javascript.vue"]

/-- Lines 433-462 of `get_sdk_debug_id_support`: the recognized official SDK
names. `registry` is `some keys` when `get_sdk_index()` succeeds (with `keys`
its key list) and `none` when it raises; on success the keys are filtered to
those starting with `"sentry.javascript."`, and the fallback list is used when
the registry is unavailable (`official_sdks is None`) or the filter result is
empty (`len(official_sdks) == 0`). -/
def official_sdks (registry : Option (List String)) : List String :=
  match registry.map (fun keys =>
    keys.filter (fun s => s.startsWith "sentry.javascript.")) with
  | none => FALLBACK_OFFICIAL_SDKS
  | some l => if l.isEmpty then FALLBACK_OFFICIAL_SDKS else l

/-- `get_sdk_debug_id_support(event_data)` (lines 430-477). `sdk_name` and
`sdk_version` are `get_path(event_data, "sdk", "name")` and
`get_path(event_data, "sdk", "version")` (absent keys give `none`; in Python,
`None not in official_sdks` is true, so a missing name returns
"unofficial-sdk" exactly as the explicit `or sdk_name is None` does).
`versionGe v w` stands for `Version(v) >= Version(w)` of the external
`packaging.version` library, which is passed in as a parameter. -/
def get_sdk_debug_id_support (registry : Option (List String))
    (versionGe : String → String → Bool)
    (sdk_name : Option String) (sdk_version : Option String) : String :=
  match sdk_name with
  | none => "unofficial-sdk"
  | some name =>
    if name ∉ official_sdks registry then "unofficial-sdk"
    else if name ∈ NO_DEBUG_ID_SDKS then "not-supported"
    else
      match sdk_version with
      | none => "unofficial-sdk"
      | some v =>
        if versionGe v MIN_JS_SDK_VERSION_FOR_DEBUG_IDS then "full"
        else "needs-upgrade"

end SourceMapDebug

namespace DynamicSampling

/-- Helper: the tenth power of `2 ^ (9/10)` is exactly `2 ^ 9 = 512`. -/
lemma pow_ten_of_two_rpow : ((2:ℝ) ^ ((9:ℝ)/10)) ^ (10:ℕ) = 512 := by
  have h2 : (0:ℝ) ≤ 2 := by norm_num
  rw [← Real.rpow_natCast ((2:ℝ) ^ ((9:ℝ)/10)) 10, ← Real.rpow_mul h2]
  rw [show (9:ℝ)/10 * (10:ℕ) = ((9:ℕ):ℝ) by push_cast; ring, Real.rpow_natCast]
  norm_num

/-- Helper: certified lower bound for `2 ^ (9/10)`, via tenth powers. -/
lemma two_rpow_lower : (18660659820736148 : ℝ)/10^16 < (2:ℝ) ^ ((9:ℝ)/10) := by
  have hnn : (0:ℝ) ≤ (2:ℝ) ^ ((9:ℝ)/10) := Real.rpow_nonneg (by norm_num) _
  refine lt_of_pow_lt_pow_left₀ 10 hnn ?_
  rw [pow_ten_of_two_rpow]
  norm_num

/-- Helper: certified upper bound for `2 ^ (9/10)`, via tenth powers. -/
lemma two_rpow_upper : (2:ℝ) ^ ((9:ℝ)/10) < (18660659840736148 : ℝ)/10^16 := by
  refine lt_of_pow_lt_pow_left₀ 10 (by norm_num) ?_
  rw [pow_ten_of_two_rpow]
  norm_num

/-- Helper: the square of `3 ^ (1/2)` is exactly `3`. -/
lemma pow_two_of_three_rpow : ((3:ℝ) ^ ((1:ℝ)/2)) ^ (2:ℕ) = 3 := by
  rw [← Real.rpow_natCast ((3:ℝ) ^ ((1:ℝ)/2)) 2, ← Real.rpow_mul (by norm_num : (0:ℝ) ≤ 3)]
  rw [show (1:ℝ)/2 * (2:ℕ) = ((1:ℕ):ℝ) by push_cast; ring, Real.rpow_natCast]
  norm_num

/-- Helper: certified lower bound for `3 ^ (1/2)`, via squares. -/
lemma three_rpow_lower : (17320508065688774 : ℝ)/10^16 < (3:ℝ) ^ ((1:ℝ)/2) := by
  have hnn : (0:ℝ) ≤ (3:ℝ) ^ ((1:ℝ)/2) := Real.rpow_nonneg (by norm_num) _
  refine lt_of_pow_lt_pow_left₀ 2 hnn ?_
  rw [pow_two_of_three_rpow]
  norm_num

/-- Helper: certified upper bound for `3 ^ (1/2)`, via squares. -/
lemma three_rpow_upper : (3:ℝ) ^ ((1:ℝ)/2) < (17320508085688774 : ℝ)/10^16 := by
  refine lt_of_pow_lt_pow_left₀ 2 (by norm_num) ?_
  rw [pow_two_of_three_rpow]
  norm_num

/-- C1, counterexample: on the valid input `base_sample_rate = 0.1`, `x = 2.0`
the function does not return the claimed quadratic blend
`sqrt(x^2 * (1 - base_sample_rate) + base_sample_rate^2)`: that blend equals
`sqrt(3.61) = 1.9`, while `apply_dynamic_factor` returns `2 ^ 0.9`, whose
tenth power is `512` and not `1.9 ^ 10`. The blend therefore also fails the §8
vector `apply_dynamic_factor(0.1, 2.0) ≈ 1.8660659830736148`. -/
theorem apply_dynamic_factor_sqrt_blend_refuted :
    (∃ r, apply_dynamic_factor (1/10) 2 = Except.ok r ∧
      r ≠ Real.sqrt (2^2 * (1 - 1/10) + (1/10)^2)) ∧
    Real.sqrt ((2:ℝ)^2 * (1 - 1/10) + (1/10)^2) = 19/10 := by
  have hs : Real.sqrt ((2:ℝ)^2 * (1 - 1/10) + (1/10)^2) = 19/10 := by
    rw [show ((2:ℝ)^2 * (1 - 1/10) + (1/10)^2) = (19/10)^2 by norm_num]
    exact Real.sqrt_sq (by norm_num)
  refine ⟨⟨(2:ℝ) ^ ((9:ℝ)/10), ?_, ?_⟩, hs⟩
  · rw [apply_dynamic_factor, if_neg (by norm_num)]
    norm_num
  · rw [hs]
    intro h
    have h10 := pow_ten_of_two_rpow
    rw [h] at h10
    norm_num at h10

/-- C1, amended: for every `base_sample_rate ∈ [0, 1]` and `x > 0`,
`apply_dynamic_factor(base_sample_rate, x)` equals
`x ^ (1 - base_sample_rate)` — the power interpolation between `x` and `1`
pinned by the §8 vectors — and the result is positive. -/
theorem apply_dynamic_factor_closed_form (b x : ℝ) (hb0 : 0 ≤ b) (hb1 : b ≤ 1)
    (hx : 0 < x) :
    apply_dynamic_factor b x = Except.ok (x ^ (1 - b)) ∧ 0 < x ^ (1 - b) := by
  constructor
  · rw [apply_dynamic_factor, if_neg (by push_neg; exact ⟨hb0, hb1, hx⟩)]
  · exact Real.rpow_pos_of_pos hx _

/-- Witness for C1 at `base_sample_rate = 0.1`, `x = 2`. -/
theorem apply_dynamic_factor_closed_form_witness :
    ((0:ℝ) ≤ 1/10 ∧ (1/10:ℝ) ≤ 1 ∧ (0:ℝ) < 2) ∧
    (apply_dynamic_factor (1/10) 2 = Except.ok ((2:ℝ) ^ (1 - 1/10 : ℝ)) ∧
      (0:ℝ) < (2:ℝ) ^ (1 - 1/10 : ℝ)) :=
  ⟨by norm_num,
   apply_dynamic_factor_closed_form (1/10) 2 (by norm_num) (by norm_num) (by norm_num)⟩

/-- C2: the four §8 vectors. `apply_dynamic_factor(0.0, 2.0) = 2` and
`apply_dynamic_factor(1.0, 4.0) = 1` exactly; `apply_dynamic_factor(0.1, 2.0)`
and `apply_dynamic_factor(0.5, 3.0)` are within `10⁻⁹` of the quoted literals
`1.8660659830736148` and `1.7320508075688774`. -/
theorem apply_dynamic_factor_test_vectors :
    apply_dynamic_factor 0 2 = Except.ok 2 ∧
    (∃ r, apply_dynamic_factor (1/10) 2 = Except.ok r ∧
      |r - 18660659830736148/10^16| < 1/10^9) ∧
    (∃ r, apply_dynamic_factor (1/2) 3 = Except.ok r ∧
      |r - 17320508075688774/10^16| < 1/10^9) ∧
    apply_dynamic_factor 1 4 = Except.ok 1 := by
  refine ⟨?_, ⟨(2:ℝ) ^ ((9:ℝ)/10), ?_, ?_⟩, ⟨(3:ℝ) ^ ((1:ℝ)/2), ?_, ?_⟩, ?_⟩
  · rw [apply_dynamic_factor, if_neg (by norm_num)]
    norm_num [Real.rpow_one]
  · rw [apply_dynamic_factor, if_neg (by norm_num)]
    norm_num
  · rw [abs_lt]
    constructor <;> nlinarith [two_rpow_lower, two_rpow_upper]
  · rw [apply_dynamic_factor, if_neg (by norm_num)]
    norm_num
  · rw [abs_lt]
    constructor <;> nlinarith [three_rpow_lower, three_rpow_upper]
  · rw [apply_dynamic_factor, if_neg (by norm_num)]
    norm_num [Real.rpow_zero]

/-- C3, counterexample: on the valid input `prev_factor = 1.0`,
`actual_rate = 0.25`, `desired_sample_rate = 0.5` the function returns `2.0`
(the authoritative §8 vector), while the claimed formula
`prev_factor * sqrt(desired_sample_rate / actual_rate)` equals `√2 ≠ 2`. -/
theorem adjusted_factor_sqrt_correction_refuted :
    adjusted_factor 1 (1/4) (1/2) = Except.ok 2 ∧
    (1:ℝ) * Real.sqrt ((1/2) / (1/4)) ≠ 2 := by
  constructor
  · rw [adjusted_factor, if_neg (by norm_num)]
    norm_num
  · rw [show ((1:ℝ)/2) / (1/4) = 2 by norm_num, one_mul]
    intro h
    have h2 := Real.sq_sqrt (by norm_num : (0:ℝ) ≤ 2)
    rw [h] at h2
    norm_num at h2

/-- C3, amended: for every `prev_factor > 0`, `actual_rate > 0` and
`desired_sample_rate ∈ (0, 1]`, `adjusted_factor` returns
`prev_factor * (desired_sample_rate / actual_rate)` — the plain proportional
correction, without the square root — and the result is positive. -/
theorem adjusted_factor_formula (f a d : ℝ) (hf : 0 < f) (ha : 0 < a)
    (hd0 : 0 < d) (hd1 : d ≤ 1) :
    adjusted_factor f a d = Except.ok (f * (d / a)) ∧ 0 < f * (d / a) := by
  constructor
  · rw [adjusted_factor, if_neg (by push_neg; exact ⟨ha, hd0⟩)]
  · positivity

/-- Witness for C3 at `prev_factor = 3`, `actual_rate = 0.5`,
`desired_sample_rate = 0.25`. -/
theorem adjusted_factor_formula_witness :
    ((0:ℝ) < 3 ∧ (0:ℝ) < 1/2 ∧ (0:ℝ) < 1/4 ∧ (1/4:ℝ) ≤ 1) ∧
    (adjusted_factor 3 (1/2) (1/4) = Except.ok ((3:ℝ) * ((1/4) / (1/2))) ∧
      (0:ℝ) < (3:ℝ) * ((1/4) / (1/2))) :=
  ⟨by norm_num,
   adjusted_factor_formula 3 (1/2) (1/4) (by norm_num) (by norm_num) (by norm_num)
     (by norm_num)⟩

/-- C5: idempotence — for every valid `f > 0` and rate `r ∈ (0, 1]`, when the
actual rate equals the desired rate, `adjusted_factor(f, r, r) = f`. -/
theorem adjusted_factor_idempotent (f r : ℝ) (hf : 0 < f) (hr0 : 0 < r)
    (hr1 : r ≤ 1) :
    adjusted_factor f r r = Except.ok f := by
  rw [adjusted_factor, if_neg (by push_neg; exact ⟨hr0, hr0⟩)]
  rw [div_self (ne_of_gt hr0), mul_one]

/-- Witness for C5 at `f = 2`, `r = 0.5`. -/
theorem adjusted_factor_idempotent_witness :
    ((0:ℝ) < 2 ∧ (0:ℝ) < 1/2 ∧ (1/2:ℝ) ≤ 1) ∧
    adjusted_factor 2 (1/2) (1/2) = Except.ok 2 :=
  ⟨by norm_num, adjusted_factor_idempotent 2 (1/2) (by norm_num) (by norm_num)
    (by norm_num)⟩

/-- C6: the two boundary identities — for every `x > 0`,
`apply_dynamic_factor(1.0, x) = 1` regardless of `x`, and
`apply_dynamic_factor(0.0, x) = x` unchanged. -/
theorem apply_dynamic_factor_boundary (x : ℝ) (hx : 0 < x) :
    apply_dynamic_factor 1 x = Except.ok 1 ∧
    apply_dynamic_factor 0 x = Except.ok x := by
  constructor
  · rw [apply_dynamic_factor, if_neg (by push_neg; exact ⟨by norm_num, by norm_num, hx⟩)]
    norm_num [Real.rpow_zero]
  · rw [apply_dynamic_factor, if_neg (by push_neg; exact ⟨by norm_num, by norm_num, hx⟩)]
    norm_num [Real.rpow_one]

/-- Witness for C6 at `x = 5`. -/
theorem apply_dynamic_factor_boundary_witness :
    ((0:ℝ) < 5) ∧
    (apply_dynamic_factor 1 5 = Except.ok 1 ∧ apply_dynamic_factor 0 5 = Except.ok 5) :=
  ⟨by norm_num, apply_dynamic_factor_boundary 5 (by norm_num)⟩

/-- C7: `apply_dynamic_factor(base_sample_rate, x)` fails with an
InvalidArgument-style error exactly when `base_sample_rate < 0`,
`base_sample_rate > 1`, or `x ≤ 0`, and on valid inputs it does not fail; the
model is a pure function, so the failure is synchronous and has no side
effects. -/
theorem apply_dynamic_factor_error_iff (b x : ℝ) :
    (∃ e, apply_dynamic_factor b x = Except.error e) ↔ b < 0 ∨ 1 < b ∨ x ≤ 0 := by
  rw [apply_dynamic_factor]
  split_ifs with h
  · simp [h]
  · simp [h]

/-- C8: `adjusted_factor(prev_factor, actual_rate, desired_sample_rate)` fails
with an InvalidArgument-style error whenever `actual_rate ≤ 0` or
`desired_sample_rate ≤ 0`; the error is returned to the caller, not
swallowed. -/
theorem adjusted_factor_error_of_nonpos (f a d : ℝ) (h : a ≤ 0 ∨ d ≤ 0) :
    ∃ e, adjusted_factor f a d = Except.error e := by
  rw [adjusted_factor, if_pos h]
  exact ⟨_, rfl⟩

/-- Witness for C8 at `prev_factor = 1`, `actual_rate = 0`,
`desired_sample_rate = 0.5`. -/
theorem adjusted_factor_error_of_nonpos_witness :
    ((0:ℝ) ≤ 0 ∨ (1/2:ℝ) ≤ 0) ∧ ∃ e, adjusted_factor 1 0 (1/2) = Except.error e :=
  ⟨Or.inl le_rfl, adjusted_factor_error_of_nonpos 1 0 (1/2) (Or.inl le_rfl)⟩

end DynamicSampling

namespace Binary64

set_option maxRecDepth 40000 in
/-- C4: on the binary64 (IEEE-754 double) model, `adjusted_factor` returns
exactly — bit for bit — the four literal vector outputs of
`test_adjusted_factor`: `adjusted_factor(1.0, 1.0, 1.0) == 1.0`,
`adjusted_factor(1.0, 0.1, 0.036) == 0.35999999999999993`,
`adjusted_factor(0.35999999999999993, 0.036, 0.036) == 0.35999999999999993`,
and `adjusted_factor(1.0, 0.25, 0.5) == 2.0`, each side being the double
denoted by the decimal literal. -/
theorem adjusted_factor_fp_test_vectors :
    adjusted_factor_fp (ofDec 1 0) (ofDec 1 0) (ofDec 1 0) = ofDec 1 0 ∧
    adjusted_factor_fp (ofDec 1 0) (ofDec 1 1) (ofDec 36 3) =
      ofDec 35999999999999993 17 ∧
    adjusted_factor_fp (ofDec 35999999999999993 17) (ofDec 36 3) (ofDec 36 3) =
      ofDec 35999999999999993 17 ∧
    adjusted_factor_fp (ofDec 1 0) (ofDec 25 2) (ofDec 5 1) = ofDec 2 0 := by
  decide

end Binary64

namespace SourceMapDebug

/-- C9: the debug-id list extracted from the event debug images is the slice
`[0:100]` of the sourcemap-typed images — at most 100 entries, exactly the
ids of the first 100 sourcemap images — and both artifact-bundle lookup
result sets (`debug_ids_with_uploaded_source_file` and
`debug_ids_with_uploaded_source_map`) only contain ids drawn from it. -/
theorem debug_ids_first_hundred (images : List DebugImage)
    (rows : List DebugIdArtifactBundleRow) :
    (extracted_debug_ids images).length ≤ 100 ∧
    extracted_debug_ids images =
      ((images.filter (fun i => i.type = "sourcemap")).take 100).map
        (fun i => i.debug_id) ∧
    (debug_id_sets images rows).1 ⊆ extracted_debug_ids images ∧
    (debug_id_sets images rows).2 ⊆ extracted_debug_ids images := by
  refine ⟨?_, ?_, ?_, ?_⟩
  · simpa [extracted_debug_ids] using
      Nat.min_le_left 100 ((images.filter (fun i => i.type = "sourcemap")).map
        (fun i => i.debug_id)).length
  · rw [extracted_debug_ids, List.map_take]
  · intro d hd
    simp only [debug_id_sets, List.mem_map, List.mem_filter] at hd
    obtain ⟨r, ⟨⟨hr1, hr2⟩, _⟩, rfl⟩ := hd
    simpa using of_decide_eq_true hr2
  · intro d hd
    simp only [debug_id_sets, List.mem_map, List.mem_filter] at hd
    obtain ⟨r, ⟨⟨hr1, hr2⟩, _⟩, rfl⟩ := hd
    simpa using of_decide_eq_true hr2

/-- C10: `get_sdk_debug_id_support` always returns one of the four literals
"not-supported", "unofficial-sdk", "needs-upgrade", "full"; and whenever the
event sdk name is one of the `NO_DEBUG_ID_SDKS` it never returns "full" or
"needs-upgrade": the result is "not-supported" when that name is among the
recognized official SDKs and "unofficial-sdk" otherwise. -/
theorem get_sdk_debug_id_support_no_debug_id_sdks
    (registry : Option (List String)) (versionGe : String → String → Bool)
    (name : String) (sdk_version : Option String)
    (h : name ∈ NO_DEBUG_ID_SDKS) :
    (∀ (reg : Option (List String)) (vge : String → String → Bool)
        (nm vr : Option String),
      get_sdk_debug_id_support reg vge nm vr ∈
        (["not-supported", "unofficial-sdk", "needs-upgrade", "full"] : List String)) ∧
    get_sdk_debug_id_support registry versionGe (some name) sdk_version =
      (if name ∈ official_sdks registry then "not-supported"
       else "unofficial-sdk") := by
  constructor
  · intro reg vge nm vr
    rcases nm with _ | n
    · simp [get_sdk_debug_id_support]
    · rcases vr with _ | v
      · simp only [get_sdk_debug_id_support]
        split_ifs <;> simp
      · simp only [get_sdk_debug_id_support]
        split_ifs <;> simp
  · by_cases h1 : name ∈ official_sdks registry
    · simp [get_sdk_debug_id_support, h1, h]
    · simp [get_sdk_debug_id_support, h1]

/-- Witness for C10 at `name = "sentry.javascript.wasm"` with the registry
unavailable (fallback list, which does not contain wasm, hence
"unofficial-sdk"). -/
theorem get_sdk_debug_id_support_no_debug_id_sdks_witness :
    ("sentry.javascript.wasm" ∈ NO_DEBUG_ID_SDKS) ∧
    ((∀ (reg : Option (List String)) (vge : String → String → Bool)
        (nm vr : Option String),
      get_sdk_debug_id_support reg vge nm vr ∈
        (["not-supported", "unofficial-sdk", "needs-upgrade", "full"] : List String)) ∧
    get_sdk_debug_id_support none (fun _ _ => true)
        (some "sentry.javascript.wasm") none =
      (if "sentry.javascript.wasm" ∈ official_sdks none then "not-supported"
       else "unofficial-sdk")) :=
  ⟨by decide,
   get_sdk_debug_id_support_no_debug_id_sdks none (fun _ _ => true)
     "sentry.javascript.wasm" none (by decide)⟩

end SourceMapDebug
